import Mathlib

/-!
Verification of the scrollbar sync engine of `ScrollContainer`
(src/src/ScrollContainer.ts) against its natural-language specification.

The TypeScript code is shallowly embedded: DOM pixel metrics become exact
rationals (`ℚ`), DOM state reads become explicit function arguments, and
each handler becomes a pure function from the metrics and the current
engine state to the new engine state.  JavaScript's `style` writes are
kept as fields of result records; percentage strings such as
`(w / sw * 100) + "%"` are kept as the plain fraction `w / sw`.
-/

namespace ScrollContainer

/-- Per-axis result of the animation-frame recomputation in `syncScrollBars`.
`visible` reflects `style.display` being `""` rather than `"none"`;
`thumbSizeFrac` / `thumbPosFrac` are the fractions written to the thumb's
size / leading-offset styles; `hasOff` reflects the `h-off` / `v-off`
class; `effectiveScrollExtent` is the (possibly epsilon-substituted)
scroll extent `sw` used as denominator. -/
structure AxisSyncResult where
  visible : Bool
  thumbSizeFrac : ℚ
  thumbPosFrac : ℚ
  hasOff : Bool
  effectiveScrollExtent : ℚ
deriving DecidableEq, Repr

/-- Embedding of the per-axis body of `syncScrollBars` (the horizontal axis
reads `clientWidth` / `scrollWidth` / `scrollLeft`, the vertical axis reads
`clientHeight` / `scrollHeight` / `scrollTop`):

    const w = this._dom_.clientWidth;
    const sw = this._dom_.scrollWidth || -0.000001;
    this.hBarOverlay.style.display = w < sw ? "" : "none";
    hasHOff = w >= sw;
    this.hBarThumb.style.width = w < sw ? (w / sw * 100) + "%" : "100%";
    this.hBarThumb.style.left = (this._dom_.scrollLeft / sw * 100) + "%";

JavaScript's `||` replaces a falsy (here: zero) `scrollWidth` by
`-0.000001`. -/
def syncAxis (clientExtent scrollExtent scrollOffset : ℚ) : AxisSyncResult :=
  let sw : ℚ := if scrollExtent = 0 then -(1/1000000) else scrollExtent
  { visible := decide (clientExtent < sw)
    thumbSizeFrac := if clientExtent < sw then clientExtent / sw else 1
    thumbPosFrac := scrollOffset / sw
    hasOff := decide (sw ≤ clientExtent)
    effectiveScrollExtent := sw }

/-- The layout metrics `syncScrollBars` reads from the scroll element. -/
structure DomMetrics where
  clientW : ℚ
  scrollW : ℚ
  scrollLeft : ℚ
  clientH : ℚ
  scrollH : ℚ
  scrollTop : ℚ
deriving DecidableEq, Repr

/-- The part of the component state `syncScrollBars` reads and writes:
the `dragging` flag, the two axis-enable flags, the transient `scrolling`
class and the rendered per-axis scrollbar state. -/
structure SyncState where
  dragging : Bool
  horizontal : Bool
  vertical : Bool
  scrolling : Bool
  hRes : AxisSyncResult
  vRes : AxisSyncResult
deriving DecidableEq, Repr

/-- Embedding of `syncScrollBars(event?)`.  `ev` is `true` when the call was
triggered by an actual scroll event (then the `scrolling` class is added
first).  If `this.dragging` is set the method returns before scheduling the
animation-frame recomputation, so no axis state changes.  Otherwise each
enabled axis is recomputed by `syncAxis`; a disabled axis only has its
overlay hidden (`style.display = "none"`). -/
def syncScrollBars (ev : Bool) (m : DomMetrics) (s : SyncState) : SyncState :=
  let s1 := if ev then { s with scrolling := true } else s
  if s1.dragging then s1
  else
    { s1 with
      hRes := if s1.horizontal then syncAxis m.clientW m.scrollW m.scrollLeft
              else { s1.hRes with visible := false }
      vRes := if s1.vertical then syncAxis m.clientH m.scrollH m.scrollTop
              else { s1.vRes with visible := false } }

/-- Helper: the per-axis recomputation satisfies the track-visibility and
thumb-size laws whenever the client extent is nonnegative. -/
theorem syncAxis_visibility_size {c s : ℚ} (o : ℚ) (hc : 0 ≤ c) :
    ((syncAxis c s o).visible = true ↔ c < s)
    ∧ (c < s → (syncAxis c s o).thumbSizeFrac = c / s)
    ∧ (s ≤ c → (syncAxis c s o).thumbSizeFrac = 1) := by
  by_cases hs : s = 0
  · subst hs
    have h1 : ¬ c < -(1/1000000 : ℚ) := by
      intro h; linarith
    have hsw : (if (0:ℚ) = 0 then -(1/1000000 : ℚ) else (0:ℚ)) = -(1/1000000) :=
      if_pos rfl
    refine ⟨?_, ?_, ?_⟩
    · simp only [syncAxis, hsw, ite_true, eq_self_iff_true, if_neg h1,
        decide_eq_true_eq]
      constructor
      · intro h; exact absurd h h1
      · intro h; linarith
    · intro h; linarith
    · intro _
      simp only [syncAxis, hsw, ite_true, eq_self_iff_true, if_neg h1]
  · refine ⟨?_, ?_, ?_⟩
    · simp [syncAxis, hs]
    · intro h
      simp only [syncAxis, if_neg hs, if_pos h]
    · intro h
      simp only [syncAxis, if_neg hs, if_neg (not_lt.mpr h)]

end ScrollContainer

namespace ScrollContainer

/-- C1: For every enabled axis, after a sync pass (no drag active, so the
animation-frame recomputation runs), the track is visible iff the client
extent is strictly below the scroll extent, and the thumb's size fraction
is `clientExtent / scrollExtent` on overflow and `1` otherwise. -/
theorem c1_track_visibility_and_thumb_size (ev : Bool) (m : DomMetrics)
    (s : SyncState) (hd : s.dragging = false)
    (hw : 0 ≤ m.clientW) (hh : 0 ≤ m.clientH) :
    (s.horizontal = true →
      (((syncScrollBars ev m s).hRes.visible = true ↔ m.clientW < m.scrollW)
      ∧ (m.clientW < m.scrollW →
          (syncScrollBars ev m s).hRes.thumbSizeFrac = m.clientW / m.scrollW)
      ∧ (m.scrollW ≤ m.clientW →
          (syncScrollBars ev m s).hRes.thumbSizeFrac = 1)))
    ∧ (s.vertical = true →
      (((syncScrollBars ev m s).vRes.visible = true ↔ m.clientH < m.scrollH)
      ∧ (m.clientH < m.scrollH →
          (syncScrollBars ev m s).vRes.thumbSizeFrac = m.clientH / m.scrollH)
      ∧ (m.scrollH ≤ m.clientH →
          (syncScrollBars ev m s).vRes.thumbSizeFrac = 1))) := by
  have hres : syncScrollBars ev m s =
      { (if ev then { s with scrolling := true } else s) with
        hRes := if s.horizontal then syncAxis m.clientW m.scrollW m.scrollLeft
                else { s.hRes with visible := false }
        vRes := if s.vertical then syncAxis m.clientH m.scrollH m.scrollTop
                else { s.vRes with visible := false } } := by
    unfold syncScrollBars
    cases ev <;> simp [hd]
  constructor
  · intro hhor
    rw [hres]
    simp only [hhor, if_pos]
    exact syncAxis_visibility_size m.scrollLeft hw
  · intro hver
    rw [hres]
    simp only [hver, if_pos]
    exact syncAxis_visibility_size m.scrollTop hh

/-- Witness for C1 at concrete metrics (client 200 < scroll 300 horizontally,
client 200 = scroll 200 vertically, both axes enabled, no drag). -/
theorem c1_track_visibility_and_thumb_size_witness :
    ((({ dragging := false, horizontal := true, vertical := true,
         scrolling := false,
         hRes := ⟨false, 0, 0, false, 0⟩, vRes := ⟨false, 0, 0, false, 0⟩ }
        : SyncState).dragging = false)
    ∧ (0:ℚ) ≤ 200 ∧ (0:ℚ) ≤ 200)
    ∧ ((syncScrollBars false ⟨200, 300, 0, 200, 200, 0⟩
         { dragging := false, horizontal := true, vertical := true,
           scrolling := false,
           hRes := ⟨false, 0, 0, false, 0⟩, vRes := ⟨false, 0, 0, false, 0⟩
         }).hRes.visible = true
        ∧ (syncScrollBars false ⟨200, 300, 0, 200, 200, 0⟩
         { dragging := false, horizontal := true, vertical := true,
           scrolling := false,
           hRes := ⟨false, 0, 0, false, 0⟩, vRes := ⟨false, 0, 0, false, 0⟩
         }).hRes.thumbSizeFrac = 200 / 300
        ∧ (syncScrollBars false ⟨200, 300, 0, 200, 200, 0⟩
         { dragging := false, horizontal := true, vertical := true,
           scrolling := false,
           hRes := ⟨false, 0, 0, false, 0⟩, vRes := ⟨false, 0, 0, false, 0⟩
         }).vRes.visible = false
        ∧ (syncScrollBars false ⟨200, 300, 0, 200, 200, 0⟩
         { dragging := false, horizontal := true, vertical := true,
           scrolling := false,
           hRes := ⟨false, 0, 0, false, 0⟩, vRes := ⟨false, 0, 0, false, 0⟩
         }).vRes.thumbSizeFrac = 1) := by
  refine ⟨⟨rfl, by norm_num, by norm_num⟩, ?_, ?_, ?_, ?_⟩
  · exact ((c1_track_visibility_and_thumb_size false _ _ rfl (by norm_num)
      (by norm_num)).1 rfl).1.mpr (by norm_num)
  · exact ((c1_track_visibility_and_thumb_size false _ _ rfl (by norm_num)
      (by norm_num)).1 rfl).2.1 (by norm_num)
  · have := ((c1_track_visibility_and_thumb_size false
      ⟨200, 300, 0, 200, 200, 0⟩
      { dragging := false, horizontal := true, vertical := true,
        scrolling := false,
        hRes := ⟨false, 0, 0, false, 0⟩, vRes := ⟨false, 0, 0, false, 0⟩ }
      rfl (by norm_num) (by norm_num)).2 rfl).1
    exact (Bool.eq_false_iff.mpr (fun h => absurd (this.mp h) (by norm_num)))
  · exact ((c1_track_visibility_and_thumb_size false _ _ rfl (by norm_num)
      (by norm_num)).2 rfl).2.2 (by norm_num)

/-- C2 counterexample: the code writes the thumb's leading-offset style as
`scrollLeft / sw * 100 + "%"`, i.e. the offset divided by the *scroll
extent*, not by the scrollable range.  At client 100, scroll 400, offset
150, the code yields 150/400 = 0.375, not 150/(400−100) = 0.5 as claimed. -/
theorem c2_thumb_position_fraction_counterexample :
    (syncAxis 100 400 150).thumbPosFrac = 150 / 400
    ∧ (syncAxis 100 400 150).thumbPosFrac ≠ 150 / (400 - 100) := by
  constructor
  · simp only [syncAxis]
    norm_num
  · simp only [syncAxis]
    norm_num

/-- C2 (amended): after a sync pass the thumb's position fraction equals the
scroll offset divided by the scroll extent (when the scroll extent is
nonzero), not by the scrollable range; in the scenario client 100, scroll
400, offset 150 the fraction is 0.375. -/
theorem c2_thumb_position_fraction (c s o : ℚ) (hs : s ≠ 0) :
    (syncAxis c s o).thumbPosFrac = o / s := by
  simp [syncAxis, hs]

/-- Witness for C2's amended theorem at the spec's scenario values. -/
theorem c2_thumb_position_fraction_witness :
    (400:ℚ) ≠ 0 ∧ (syncAxis 100 400 150).thumbPosFrac = 150 / 400 :=
  ⟨by norm_num, c2_thumb_position_fraction 100 400 150 (by norm_num)⟩

/-- C10: when the scroll extent is zero, `syncScrollBars` substitutes the
negative epsilon −0.000001 for it, so the denominator of the thumb's size
and position fractions is nonzero (the ratios stay finite), the track is
hidden and the axis reports not-overflowing (`hasOff`). -/
theorem c10_zero_scroll_extent_epsilon (c o : ℚ) (hc : 0 ≤ c) :
    (syncAxis c 0 o).effectiveScrollExtent = -(1/1000000)
    ∧ (syncAxis c 0 o).effectiveScrollExtent ≠ 0
    ∧ (syncAxis c 0 o).visible = false
    ∧ (syncAxis c 0 o).hasOff = true
    ∧ (syncAxis c 0 o).thumbSizeFrac = 1
    ∧ (syncAxis c 0 o).thumbPosFrac = o / (-(1/1000000)) := by
  have h1 : ¬ c < -(1/1000000 : ℚ) := by intro h; linarith
  have hsw : (if (0:ℚ) = 0 then -(1/1000000 : ℚ) else (0:ℚ)) = -(1/1000000) :=
    if_pos rfl
  refine ⟨?_, ?_, ?_, ?_, ?_, ?_⟩ <;>
    simp only [syncAxis, hsw, ite_true, eq_self_iff_true, if_neg h1,
      decide_eq_true_eq, decide_eq_false_iff_not]
  · norm_num
  · exact h1
  · linarith

/-- C6 counterexample: with a drag active on the horizontal axis, a sync
call leaves the *vertical* axis state untouched even though the vertical
metrics (client 100 < scroll 400) would make its track visible: the whole
animation-frame recomputation is skipped, contrary to the claim that the
other axis's computations and the visibility computations remain live. -/
theorem c6_sync_during_drag_counterexample :
    (syncScrollBars false ⟨100, 400, 0, 100, 400, 0⟩
      { dragging := true, horizontal := true, vertical := true,
        scrolling := false,
        hRes := ⟨false, 0, 0, false, 0⟩,
        vRes := ⟨false, 0, 0, false, 0⟩ }).vRes
      = ⟨false, 0, 0, false, 0⟩
    ∧ (syncAxis 100 400 0).visible = true := by
  constructor
  · rfl
  · decide

/-- C6 (amended): while a drag session is active, a sync call is a complete
no-op apart from entering the transient `scrolling` state when triggered by
a scroll event — no axis's thumb geometry and no track visibility is
recomputed (the per-spec-4.1 behavior; spec 4.4's "other axis and
visibility computations remain live" does not hold). -/
theorem c6_sync_noop_during_drag (ev : Bool) (m : DomMetrics) (s : SyncState)
    (hd : s.dragging = true) :
    syncScrollBars ev m s = if ev then { s with scrolling := true } else s := by
  unfold syncScrollBars
  cases ev <;> simp [hd]

/-- Witness for C6's amended theorem at a concrete dragging state. -/
theorem c6_sync_noop_during_drag_witness :
    (({ dragging := true, horizontal := true, vertical := true,
        scrolling := false,
        hRes := ⟨false, 0, 0, false, 0⟩, vRes := ⟨false, 0, 0, false, 0⟩ }
      : SyncState).dragging = true)
    ∧ syncScrollBars true ⟨100, 400, 0, 100, 400, 0⟩
        { dragging := true, horizontal := true, vertical := true,
          scrolling := false,
          hRes := ⟨false, 0, 0, false, 0⟩, vRes := ⟨false, 0, 0, false, 0⟩ }
      = { dragging := true, horizontal := true, vertical := true,
          scrolling := true,
          hRes := ⟨false, 0, 0, false, 0⟩, vRes := ⟨false, 0, 0, false, 0⟩ } :=
  ⟨rfl, c6_sync_noop_during_drag true ⟨100, 400, 0, 100, 400, 0⟩ _ rfl⟩

/-- Witness for C10 at client extent 200, scroll extent 0, offset 0. -/
theorem c10_zero_scroll_extent_epsilon_witness :
    (0:ℚ) ≤ 200
    ∧ ((syncAxis 200 0 0).visible = false
       ∧ (syncAxis 200 0 0).hasOff = true
       ∧ (syncAxis 200 0 0).effectiveScrollExtent ≠ 0) :=
  ⟨by norm_num,
   (c10_zero_scroll_extent_epsilon 200 0 (by norm_num)).2.2.1,
   (c10_zero_scroll_extent_epsilon 200 0 (by norm_num)).2.2.2.1,
   (c10_zero_scroll_extent_epsilon 200 0 (by norm_num)).2.1⟩

/-- Result of one `onDragThumbPointerMove` handler invocation along the
active axis: the clamped leading offset written to the thumb's style and
the value passed to `scrollTo` along that axis. -/
structure DragMoveResult where
  thumbLead : ℚ
  scrollTarget : ℚ
deriving DecidableEq, Repr

/-- Embedding of the per-axis body of `onDragThumbPointerMove`.  The
horizontal branch instantiates the arguments with `clientX`, `dragStart.x`,
`draggingThumbRect.left`, `draggingThumbRect.width`,
`draggingBarRect.width`, `scrollWidth`, `offsetWidth`,
`dragStartElementPos.x`; the vertical branch with the `y` / `top` /
`height` analogues:

    const dx = event.clientX - this.dragStart.x;
    let left = Math.max(0, this.draggingThumbRect.left + dx);
    left = Math.min(left, this.draggingBarRect.width - this.draggingThumbRect.width);
    const f = (this._dom_.scrollWidth - this._dom_.offsetWidth) /
              (this.draggingBarRect.width - this.draggingThumbRect.width);
    this.draggingThumb.style.left = left + "px";
    this._dom_.scrollTo(\x7b left: this.dragStartElementPos.x + (dx * f) \x7d);

Note the numerator of `f` uses the element's *offset* (outer) extent, not
its client extent. -/
def onDragThumbPointerMove (pointerPos dragStartPos thumbRectLead
    thumbRectExtent barRectExtent scrollExtent offsetExtent
    dragStartScroll : ℚ) : DragMoveResult :=
  let d := pointerPos - dragStartPos
  let lead0 := max 0 (thumbRectLead + d)
  let lead := min lead0 (barRectExtent - thumbRectExtent)
  let f := (scrollExtent - offsetExtent) / (barRectExtent - thumbRectExtent)
  { thumbLead := lead, scrollTarget := dragStartScroll + d * f }

/-- C3 counterexample: the drag factor `f` divides
`scrollExtent − offsetExtent` (the element's outer extent), not
`scrollExtent − clientExtent`.  For an element with client extent 100 but
outer (offset) extent 120 (e.g. a 10px border on each side), scroll extent
400, track 200, thumb 50, start offset/position 0 and pointer delta 10,
the code requests scroll target 10·(400−120)/150 = 56/3 ≈ 18.67, while
the claimed formula gives 10·(400−100)/150 = 20. -/
theorem c3_drag_mapping_counterexample :
    (onDragThumbPointerMove 10 0 0 50 200 400 120 0).scrollTarget = 56 / 3
    ∧ (onDragThumbPointerMove 10 0 0 50 200 400 120 0).scrollTarget
        ≠ 0 + 10 * ((400 - 100) / (200 - 50)) := by
  constructor
  · simp only [onDragThumbPointerMove]
    norm_num
  · simp only [onDragThumbPointerMove]
    norm_num

/-- C3 (amended): during a thumb drag the scroll offset is set to
`startScrollOffset + delta × f` with
`f = (scrollExtent − offsetExtent) / (trackLength − thumbLength)`, where
`offsetExtent` is the element's outer extent (`offsetWidth` /
`offsetHeight`), which coincides with the client extent only when the
element has no border.  In that borderless case, with the thumb geometry
produced by a sync pass, dragging the thumb to its maximum draggable
offset sets the scroll target to exactly `scrollExtent − clientExtent`. -/
theorem c3_drag_linear_mapping (p q ss ce se be te tl oe : ℚ)
    (hte : te = ce / se * be) (htl : tl = ss / se * be)
    (hb : 0 < be) (hc : 0 < ce) (hlt : ce < se) :
    ((onDragThumbPointerMove p q tl te be se oe ss).scrollTarget
      = ss + (p - q) * ((se - oe) / (be - te)))
    ∧ (oe = ce → p - q = (be - te) - tl →
        (onDragThumbPointerMove p q tl te be se oe ss).scrollTarget
          = se - ce) := by
  have hse : (0:ℚ) < se := lt_trans hc hlt
  have hsne : se ≠ 0 := ne_of_gt hse
  have hbene : be ≠ 0 := ne_of_gt hb
  have hscne : se - ce ≠ 0 := sub_ne_zero.mpr (ne_of_gt hlt)
  have hb2 : be - te = be * (se - ce) / se := by
    rw [hte]
    field_simp
    ring
  constructor
  · simp only [onDragThumbPointerMove]
  · intro hoe hmax
    have key : (se - ce) / (be - te) = se / be := by
      rw [hb2, div_div_eq_mul_div, mul_comm be (se - ce),
        mul_div_mul_left se be hscne]
    simp only [onDragThumbPointerMove]
    rw [hoe, hmax, key, hb2, htl]
    field_simp
    try ring

/-- Witness for C3's amended theorem: client = outer extent 100, scroll 400,
track 200 ⇒ thumb 50; from offset 0, the maximum drag delta 150 lands the
scroll target exactly at 400 − 100 = 300. -/
theorem c3_drag_linear_mapping_witness :
    ((50:ℚ) = 100 / 400 * 200 ∧ (0:ℚ) = 0 / 400 * 200 ∧ (0:ℚ) < 200
      ∧ (0:ℚ) < 100 ∧ (100:ℚ) < 400)
    ∧ (onDragThumbPointerMove 150 0 0 50 200 400 100 0).scrollTarget
        = 400 - 100 :=
  ⟨⟨by norm_num, by norm_num, by norm_num, by norm_num, by norm_num⟩,
   (c3_drag_linear_mapping 150 0 0 100 400 200 50 0 100 (by norm_num)
     (by norm_num) (by norm_num) (by norm_num) (by norm_num)).2 rfl
     (by norm_num)⟩

/-- Result of one `onScrollBarPointerDown` invocation on empty track space
along the pressed bar's axis: the stored continuous-scroll direction flag,
the stored page length, and the amount of the immediate smooth `scrollBy`. -/
structure PressDownResult where
  contScrollBackwards : Bool
  scrollPageLength : ℚ
  scrollByAmount : ℚ
deriving DecidableEq, Repr

/-- Embedding of the per-axis body of `onScrollBarPointerDown` (the `hBar`
branch instantiates the arguments with `offsetX`, `hBarThumb.offsetLeft`,
`hBarThumb.offsetWidth`, `hBar.offsetWidth`, `scrollWidth`; the `vBar`
branch with the `Y` / `Top` / `Height` analogues):

    this.contScrollBackwards = event.offsetX <= this.hBarThumb.offsetLeft;
    this.scrollPageLength = this._dom_.scrollWidth * this.hBarThumb.offsetWidth / this.hBar.offsetWidth;
    const scrollBy = event.offsetX < this.hBarThumb.offsetLeft ? -this.scrollPageLength : this.scrollPageLength;

Note the direction flag uses `<=` while the immediate scroll direction
uses `<`. -/
def onScrollBarPointerDown (pressPos thumbLead thumbExtent barExtent
    scrollExtent : ℚ) : PressDownResult :=
  let pageLength := scrollExtent * thumbExtent / barExtent
  { contScrollBackwards := decide (pressPos ≤ thumbLead)
    scrollPageLength := pageLength
    scrollByAmount := if pressPos < thumbLead then -pageLength else pageLength }

/-- C4 counterexample: at a press point exactly equal to the thumb's
leading edge (press 50, thumb leading edge 50), the stored direction flag
is *backward* (`<=` comparison) although the press point does not precede
the leading edge — while the immediate smooth scroll issued at the same
time is *forward* (`<` comparison), so it is not in the computed
direction either. -/
theorem c4_press_direction_counterexample :
    (onScrollBarPointerDown 50 50 100 300 900).contScrollBackwards = true
    ∧ ¬ ((50:ℚ) < 50)
    ∧ (onScrollBarPointerDown 50 50 100 300 900).scrollByAmount
        = (onScrollBarPointerDown 50 50 100 300 900).scrollPageLength := by
  refine ⟨by decide, by norm_num, ?_⟩
  simp only [onScrollBarPointerDown]
  norm_num

/-- C4 (amended): on a pointer-down on empty track space the stored
direction flag is backward exactly when the press point is at or before
the thumb's leading edge (so backward, not forward, at exact equality);
the page length equals `scrollExtent × (thumbLength / trackLength)`; and
the single smooth scroll issued immediately is `−pageLength` when the
press point strictly precedes the leading edge and `+pageLength`
otherwise — hence at exact equality the immediate scroll is forward while
the stored flag is backward. -/
theorem c4_press_direction_and_page_length (pressPos thumbLead thumbExtent
    barExtent scrollExtent : ℚ) :
    ((onScrollBarPointerDown pressPos thumbLead thumbExtent barExtent
        scrollExtent).contScrollBackwards = true ↔ pressPos ≤ thumbLead)
    ∧ (onScrollBarPointerDown pressPos thumbLead thumbExtent barExtent
        scrollExtent).scrollPageLength
        = scrollExtent * (thumbExtent / barExtent)
    ∧ (pressPos < thumbLead →
        (onScrollBarPointerDown pressPos thumbLead thumbExtent barExtent
          scrollExtent).scrollByAmount
        = -(onScrollBarPointerDown pressPos thumbLead thumbExtent barExtent
          scrollExtent).scrollPageLength)
    ∧ (thumbLead ≤ pressPos →
        (onScrollBarPointerDown pressPos thumbLead thumbExtent barExtent
          scrollExtent).scrollByAmount
        = (onScrollBarPointerDown pressPos thumbLead thumbExtent barExtent
          scrollExtent).scrollPageLength) := by
  refine ⟨?_, ?_, ?_, ?_⟩
  · simp [onScrollBarPointerDown]
  · simp only [onScrollBarPointerDown]
    rw [mul_div_assoc]
  · intro h
    simp only [onScrollBarPointerDown, if_pos h]
  · intro h
    by_cases hlt : pressPos < thumbLead
    · exact absurd h (not_le.mpr hlt)
    · simp only [onScrollBarPointerDown, if_neg hlt]

/-- Witness for C4's amended theorem at the spec's scenario: press at 10
with the thumb spanning [50, 150] on a 300px track and scroll extent 900:
direction backward, page length 900 × (100/300) = 300, immediate scroll
−300. -/
theorem c4_press_direction_and_page_length_witness :
    ((onScrollBarPointerDown 10 50 100 300 900).contScrollBackwards = true
      ∧ (10:ℚ) ≤ 50)
    ∧ (onScrollBarPointerDown 10 50 100 300 900).scrollPageLength
        = 900 * ((100:ℚ) / 300)
    ∧ ((10:ℚ) < 50
      ∧ (onScrollBarPointerDown 10 50 100 300 900).scrollByAmount
        = -(onScrollBarPointerDown 10 50 100 300 900).scrollPageLength) :=
  ⟨⟨(c4_press_direction_and_page_length 10 50 100 300 900).1.mpr
      (by norm_num), by norm_num⟩,
   (c4_press_direction_and_page_length 10 50 100 300 900).2.1,
   by norm_num,
   (c4_press_direction_and_page_length 10 50 100 300 900).2.2.1
     (by norm_num)⟩

/-- A 2D point as used for the stored press position (`DOMPoint`). -/
structure DomPoint where
  x : ℚ
  y : ℚ
deriving DecidableEq, Repr

/-- A `DOMRect` as constructed by `new DOMRect(x, y, width, height)`:
`left = x`, `top = y`, `right = x + width`, `bottom = y + height`. -/
structure DomRect where
  x : ℚ
  y : ℚ
  w : ℚ
  h : ℚ
deriving DecidableEq, Repr

/-- `DOMRect.left`. -/
def DomRect.left (r : DomRect) : ℚ := r.x

/-- `DOMRect.top`. -/
def DomRect.top (r : DomRect) : ℚ := r.y

/-- `DOMRect.right = x + width`. -/
def DomRect.right (r : DomRect) : ℚ := r.x + r.w

/-- `DOMRect.bottom = y + height`. -/
def DomRect.bottom (r : DomRect) : ℚ := r.y + r.h

/-- Embedding of `rectContains`: point-in-rectangle, inclusive of edges:

    return (point.x >= rect.left) && (point.y >= rect.top)
        && (point.x <= rect.right) && (point.y <= rect.bottom);
-/
def rectContains (rect : DomRect) (point : DomPoint) : Bool :=
  decide (rect.left ≤ point.x) && decide (rect.top ≤ point.y)
    && decide (point.x ≤ rect.right) && decide (point.y ≤ rect.bottom)

/-- The rectangle the continuous-scroll loop in `onScrollEnd` builds for the
active thumb.  The source passes `offsetLeft + offsetWidth` as the *width*
argument and `offsetTop + offsetHeight` as the *height* argument of the
`DOMRect` constructor (which expects a width and a height), so the
resulting rectangle extends to `right = 2·offsetLeft + offsetWidth` and
`bottom = 2·offsetTop + offsetHeight`:

    new DOMRect(thumb.offsetLeft, thumb.offsetTop,
                thumb.offsetLeft + thumb.offsetWidth,
                thumb.offsetTop + thumb.offsetHeight)
-/
def contScrollThumbRect (offsetLeft offsetTop offsetWidth
    offsetHeight : ℚ) : DomRect :=
  { x := offsetLeft, y := offsetTop,
    w := offsetLeft + offsetWidth, h := offsetTop + offsetHeight }

/-- The component state read by each continuous-scroll animation-frame
step. -/
structure ContScrollState where
  isPointerDown : Bool
  contScrollHorizontal : Bool
  contScrollBackwards : Bool
  scrollPageLength : ℚ
  contScrollStartPos : DomPoint
deriving DecidableEq, Repr

/-- Outcome of one `rafScroll` animation-frame step: either the loop stops
(no scroll, no rescheduling) or it scrolls by the given left/top deltas and
reschedules itself. -/
inductive RafStepResult where
  | stopped : RafStepResult
  | stepped (dLeft dTop : ℚ) : RafStepResult
deriving DecidableEq, Repr

/-- Embedding of one iteration of the self-rescheduling `rafScroll` closure
inside `onScrollEnd`.  The thumb metrics passed are those of the active
axis's thumb (`hBarThumb` when `contScrollHorizontal`, else `vBarThumb`). -/
def rafScrollStep (s : ContScrollState) (thumbOffsetLeft thumbOffsetTop
    thumbOffsetWidth thumbOffsetHeight : ℚ) : RafStepResult :=
  if s.isPointerDown = false then .stopped
  else if rectContains
      (contScrollThumbRect thumbOffsetLeft thumbOffsetTop thumbOffsetWidth
        thumbOffsetHeight)
      s.contScrollStartPos then .stopped
  else
    let contScrollDistance :=
      if s.contScrollBackwards then -(s.scrollPageLength / 10)
      else s.scrollPageLength / 10
    if s.contScrollHorizontal then .stepped contScrollDistance 0
    else .stepped 0 contScrollDistance

/-- C5 (code bug): the continuous-scroll loop builds its stop rectangle by
passing `offsetLeft + offsetWidth` / `offsetTop + offsetHeight` as the
`DOMRect` constructor's width/height arguments, so the rectangle's right
edge is `2·offsetLeft + offsetWidth` instead of `offsetLeft + offsetWidth`.
With the thumb spanning [50, 150] × [0, 10], pointer still down and press
point (200, 5), the loop stops even though the thumb's actual rectangle
does not contain the press point; with press point (300, 5), outside even
the inflated rectangle, the loop steps by `pageLength / 10` as intended. -/
theorem c5_cont_scroll_stop_bug :
    rafScrollStep ⟨true, true, false, 100, ⟨200, 5⟩⟩ 50 0 100 10
      = RafStepResult.stopped
    ∧ rectContains ⟨50, 0, 100, 10⟩ ⟨200, 5⟩ = false
    ∧ rafScrollStep ⟨true, true, false, 100, ⟨300, 5⟩⟩ 50 0 100 10
      = RafStepResult.stepped (100 / 10) 0
    ∧ rafScrollStep ⟨false, true, false, 100, ⟨300, 5⟩⟩ 50 0 100 10
      = RafStepResult.stopped := by
  refine ⟨?_, ?_, ?_, ?_⟩ <;>
    norm_num [rafScrollStep, rectContains, contScrollThumbRect,
      DomRect.left, DomRect.top, DomRect.right, DomRect.bottom]

/-- The `offsetLeft` / `offsetTop` / `offsetWidth` / `offsetHeight` metrics
of an external element referenced by a `ScrollbarAdjustment`. -/
structure ElemMetrics where
  offsetLeft : ℚ
  offsetTop : ℚ
  offsetWidth : ℚ
  offsetHeight : ℚ
deriving DecidableEq, Repr

/-- One half of a `ScrollbarAdjustment`: a plain number of pixels, or a
reference to an external element (identified here by a numeric id). -/
inductive AdjPart where
  | num (v : ℚ) : AdjPart
  | elem (e : ℕ) : AdjPart
deriving DecidableEq, Repr

/-- `ResizeObserver.unobserve` for an element-valued adjustment part (the
guarded `typeof ... !== "number"` branch); a numeric part unobserves
nothing. -/
def unobserveElem (p : AdjPart) (obs : Finset ℕ) : Finset ℕ :=
  match p with
  | .num _ => obs
  | .elem e => obs.erase e

/-- `ResizeObserver.observe` for an element-valued adjustment part; a
numeric part observes nothing.  Observing an already-observed element is
idempotent (`ResizeObserver` keeps one subscription per element). -/
def observeElem (p : AdjPart) (obs : Finset ℕ) : Finset ℕ :=
  match p with
  | .num _ => obs
  | .elem e => insert e obs

/-- The adjustment-related component state: the elements currently observed
by `adjustmentResizeObserver`, both axes' adjustment parts, the derived
offset / reduce-size values, and a counter of `syncScrollBars` calls. -/
structure AdjState where
  observed : Finset ℕ
  hOffset : AdjPart
  hReduce : AdjPart
  vOffset : AdjPart
  vReduce : AdjPart
  hBarLeftOffset : ℚ
  hBarReduceWidth : ℚ
  vBarTopOffset : ℚ
  vBarReduceHeight : ℚ
  syncCount : ℕ
deriving DecidableEq

/-- Embedding of `horizontalAdjustment(scrollbarAdjustment?)`: unobserve the
old element-valued parts, replace the stored adjustment (an absent argument
becomes `\x7b Offset: 0, ReduceSize: 0 \x7d`), observe the new
element-valued parts and derive the stored values, then sync.  Faithful to
the source, an element-valued `Offset` stores the element's `offsetTop`
and an element-valued `ReduceSize` stores its `offsetHeight` — even though
this is the *horizontal* bar, whose left offset / width reduction the
resize observer later derives from `offsetLeft` / `offsetWidth`. -/
def horizontalAdjustment (scrollbarAdjustment : Option (AdjPart × AdjPart))
    (m : ℕ → ElemMetrics) (s : AdjState) : AdjState :=
  let obs1 := unobserveElem s.hOffset s.observed
  let obs2 := unobserveElem s.hReduce obs1
  let newOff := (scrollbarAdjustment.getD (AdjPart.num 0, AdjPart.num 0)).1
  let newRed := (scrollbarAdjustment.getD (AdjPart.num 0, AdjPart.num 0)).2
  let obs3 := observeElem newOff obs2
  let obs4 := observeElem newRed obs3
  let newLeft := match newOff with
    | AdjPart.num v => v
    | AdjPart.elem e => (m e).offsetTop
  let newReduce := match newRed with
    | AdjPart.num v => v
    | AdjPart.elem e => (m e).offsetHeight
  { s with
    observed := obs4
    hOffset := newOff
    hReduce := newRed
    hBarLeftOffset := newLeft
    hBarReduceWidth := newReduce
    syncCount := s.syncCount + 1 }

/-- Embedding of `verticalAdjustment(scrollbarAdjustment?)`: same shape as
`horizontalAdjustment`; here the `offsetTop` / `offsetHeight` reads match
the vertical bar's top offset / height reduction. -/
def verticalAdjustment (scrollbarAdjustment : Option (AdjPart × AdjPart))
    (m : ℕ → ElemMetrics) (s : AdjState) : AdjState :=
  let obs1 := unobserveElem s.vOffset s.observed
  let obs2 := unobserveElem s.vReduce obs1
  let newOff := (scrollbarAdjustment.getD (AdjPart.num 0, AdjPart.num 0)).1
  let newRed := (scrollbarAdjustment.getD (AdjPart.num 0, AdjPart.num 0)).2
  let obs3 := observeElem newOff obs2
  let obs4 := observeElem newRed obs3
  let newTop := match newOff with
    | AdjPart.num v => v
    | AdjPart.elem e => (m e).offsetTop
  let newReduce := match newRed with
    | AdjPart.num v => v
    | AdjPart.elem e => (m e).offsetHeight
  { s with
    observed := obs4
    vOffset := newOff
    vReduce := newRed
    vBarTopOffset := newTop
    vBarReduceHeight := newReduce
    syncCount := s.syncCount + 1 }

/-- Embedding of the `adjustmentResizeObserver` callback for a resize event
of a single observed element `e`: each adjustment part whose referenced
element is `e` has its stored value re-derived (`offsetLeft` /
`offsetWidth` for the horizontal axis, `offsetTop` / `offsetHeight` for
the vertical axis), and if any part matched, exactly one
`syncScrollBars()` call is made.  An element that is not observed produces
no callback at all. -/
def adjustmentResize (e : ℕ) (m : ℕ → ElemMetrics) (s : AdjState) :
    AdjState :=
  if e ∈ s.observed then
    { s with
      hBarLeftOffset := if s.hOffset = AdjPart.elem e then (m e).offsetLeft
        else s.hBarLeftOffset
      hBarReduceWidth := if s.hReduce = AdjPart.elem e then (m e).offsetWidth
        else s.hBarReduceWidth
      vBarTopOffset := if s.vOffset = AdjPart.elem e then (m e).offsetTop
        else s.vBarTopOffset
      vBarReduceHeight := if s.vReduce = AdjPart.elem e then (m e).offsetHeight
        else s.vBarReduceHeight
      syncCount := if s.hOffset = AdjPart.elem e ∨ s.hReduce = AdjPart.elem e
          ∨ s.vOffset = AdjPart.elem e ∨ s.vReduce = AdjPart.elem e
        then s.syncCount + 1 else s.syncCount }
  else s

/-- Unobserving never adds an element to the observed set. -/
theorem not_mem_unobserveElem (p : AdjPart) {obs : Finset ℕ} {e : ℕ}
    (h : e ∉ obs) : e ∉ unobserveElem p obs := by
  cases p with
  | num v => exact h
  | elem e2 =>
    simp only [unobserveElem, Finset.mem_erase]
    intro hc
    exact h hc.2

/-- Unobserving an element-valued part removes its element. -/
theorem unobserveElem_self (e : ℕ) (obs : Finset ℕ) :
    e ∉ unobserveElem (AdjPart.elem e) obs :=
  Finset.not_mem_erase e obs

/-- Observing a part whose element differs from `e` cannot add `e`. -/
theorem not_mem_observeElem {p : AdjPart} {obs : Finset ℕ} {e : ℕ}
    (h : e ∉ obs) (hne : p ≠ AdjPart.elem e) : e ∉ observeElem p obs := by
  cases p with
  | num v => exact h
  | elem e2 =>
    simp only [observeElem, Finset.mem_insert]
    rintro (rfl | hc)
    · exact hne rfl
    · exact h hc

/-- Observing an element-valued part adds its element. -/
theorem mem_observeElem_self (e : ℕ) (obs : Finset ℕ) :
    e ∈ observeElem (AdjPart.elem e) obs :=
  Finset.mem_insert_self e obs

/-- Observing preserves membership. -/
theorem mem_observeElem_of_mem (p : AdjPart) {obs : Finset ℕ} {e : ℕ}
    (h : e ∈ obs) : e ∈ observeElem p obs := by
  cases p with
  | num v => exact h
  | elem e2 => exact Finset.mem_insert_of_mem h

/-- C7: replacing a horizontal adjustment first unsubscribes the prior
element-derived sources, then subscribes the new ones: afterwards any old
source element (not reused by the new pair) is no longer observed, so a
resize of it changes nothing — in particular triggers no sync — while a
resize of a newly subscribed element triggers exactly one resync. -/
theorem c7_adjustment_swap (s : AdjState) (m : ℕ → ElemMetrics)
    (eOld : ℕ) (p q : AdjPart)
    (hOld : s.hOffset = AdjPart.elem eOld ∨ s.hReduce = AdjPart.elem eOld)
    (hp : p ≠ AdjPart.elem eOld) (hq : q ≠ AdjPart.elem eOld) :
    eOld ∉ (horizontalAdjustment (some (p, q)) m s).observed
    ∧ adjustmentResize eOld m (horizontalAdjustment (some (p, q)) m s)
        = horizontalAdjustment (some (p, q)) m s
    ∧ ∀ eNew : ℕ, p = AdjPart.elem eNew →
        eNew ∈ (horizontalAdjustment (some (p, q)) m s).observed
        ∧ (adjustmentResize eNew m
            (horizontalAdjustment (some (p, q)) m s)).syncCount
          = (horizontalAdjustment (some (p, q)) m s).syncCount + 1 := by
  have h1 : eOld ∉ unobserveElem s.hReduce
      (unobserveElem s.hOffset s.observed) := by
    rcases hOld with h | h
    · refine not_mem_unobserveElem _ ?_
      rw [h]
      exact unobserveElem_self eOld s.observed
    · rw [h]
      exact unobserveElem_self eOld _
  have h2 : eOld ∉ (horizontalAdjustment (some (p, q)) m s).observed :=
    not_mem_observeElem (not_mem_observeElem h1 hp) hq
  refine ⟨h2, ?_, ?_⟩
  · simp only [adjustmentResize, if_neg h2]
  · intro eNew hpe
    have hmem : eNew ∈ (horizontalAdjustment (some (p, q)) m s).observed := by
      refine mem_observeElem_of_mem q ?_
      rw [hpe]
      exact mem_observeElem_self eNew _
    have hcond : (horizontalAdjustment (some (p, q)) m s).hOffset
        = AdjPart.elem eNew := hpe
    refine ⟨hmem, ?_⟩
    simp only [adjustmentResize, if_pos hmem]
    simp [hcond]

/-- Witness for C7 at a concrete state: the old horizontal offset source is
element 1, the new adjustment derives the offset from element 2 and uses a
numeric reduce-size; after the swap element 1 is unobserved (a resize of it
changes nothing) and a resize of element 2 bumps the sync counter by one. -/
theorem c7_adjustment_swap_witness :
    ((⟨{1}, AdjPart.elem 1, AdjPart.num 0, AdjPart.num 0, AdjPart.num 0,
        0, 0, 0, 0, 0⟩ : AdjState).hOffset = AdjPart.elem 1
      ∧ AdjPart.elem 2 ≠ AdjPart.elem 1 ∧ AdjPart.num 7 ≠ AdjPart.elem 1)
    ∧ (1 ∉ (horizontalAdjustment (some (AdjPart.elem 2, AdjPart.num 7))
          (fun _ => ⟨3, 4, 5, 6⟩)
          ⟨{1}, AdjPart.elem 1, AdjPart.num 0, AdjPart.num 0, AdjPart.num 0,
            0, 0, 0, 0, 0⟩).observed
      ∧ (2 ∈ (horizontalAdjustment (some (AdjPart.elem 2, AdjPart.num 7))
          (fun _ => ⟨3, 4, 5, 6⟩)
          ⟨{1}, AdjPart.elem 1, AdjPart.num 0, AdjPart.num 0, AdjPart.num 0,
            0, 0, 0, 0, 0⟩).observed
        ∧ (adjustmentResize 2 (fun _ => ⟨3, 4, 5, 6⟩)
            (horizontalAdjustment (some (AdjPart.elem 2, AdjPart.num 7))
              (fun _ => ⟨3, 4, 5, 6⟩)
              ⟨{1}, AdjPart.elem 1, AdjPart.num 0, AdjPart.num 0,
                AdjPart.num 0, 0, 0, 0, 0, 0⟩)).syncCount
          = (horizontalAdjustment (some (AdjPart.elem 2, AdjPart.num 7))
              (fun _ => ⟨3, 4, 5, 6⟩)
              ⟨{1}, AdjPart.elem 1, AdjPart.num 0, AdjPart.num 0,
                AdjPart.num 0, 0, 0, 0, 0, 0⟩).syncCount + 1)) :=
  ⟨⟨rfl, by decide, by decide⟩,
   (c7_adjustment_swap _ _ 1 (AdjPart.elem 2) (AdjPart.num 7)
      (Or.inl rfl) (by decide) (by decide)).1,
   ((c7_adjustment_swap _ _ 1 (AdjPart.elem 2) (AdjPart.num 7)
      (Or.inl rfl) (by decide) (by decide)).2.2 2 rfl).1,
   ((c7_adjustment_swap _ _ 1 (AdjPart.elem 2) (AdjPart.num 7)
      (Or.inl rfl) (by decide) (by decide)).2.2 2 rfl).2⟩

/-- C8 (code bug): for an element-derived *horizontal* adjustment, the
set-time derivation in `horizontalAdjustment` stores the element's
`offsetTop` as the bar's left offset and its `offsetHeight` as the width
reduction, while the resize-observer path stores `offsetLeft` and
`offsetWidth` — so with an element whose metrics are `offsetLeft = 30`,
`offsetTop = 70`, `offsetWidth = 200`, `offsetHeight = 40`, set-time
stores 70/40 and the first observed resize changes them to 30/200,
contradicting both the claim and the module's own documentation of
`ScrollbarAdjustment`. -/
theorem c8_horizontal_adjustment_derivation_bug :
    (horizontalAdjustment (some (AdjPart.elem 5, AdjPart.elem 5))
        (fun _ => ⟨30, 70, 200, 40⟩)
        ⟨∅, AdjPart.num 0, AdjPart.num 0, AdjPart.num 0, AdjPart.num 0,
          0, 0, 0, 0, 0⟩).hBarLeftOffset = 70
    ∧ (horizontalAdjustment (some (AdjPart.elem 5, AdjPart.elem 5))
        (fun _ => ⟨30, 70, 200, 40⟩)
        ⟨∅, AdjPart.num 0, AdjPart.num 0, AdjPart.num 0, AdjPart.num 0,
          0, 0, 0, 0, 0⟩).hBarReduceWidth = 40
    ∧ (adjustmentResize 5 (fun _ => ⟨30, 70, 200, 40⟩)
        (horizontalAdjustment (some (AdjPart.elem 5, AdjPart.elem 5))
          (fun _ => ⟨30, 70, 200, 40⟩)
          ⟨∅, AdjPart.num 0, AdjPart.num 0, AdjPart.num 0, AdjPart.num 0,
            0, 0, 0, 0, 0⟩)).hBarLeftOffset = 30
    ∧ (adjustmentResize 5 (fun _ => ⟨30, 70, 200, 40⟩)
        (horizontalAdjustment (some (AdjPart.elem 5, AdjPart.elem 5))
          (fun _ => ⟨30, 70, 200, 40⟩)
          ⟨∅, AdjPart.num 0, AdjPart.num 0, AdjPart.num 0, AdjPart.num 0,
            0, 0, 0, 0, 0⟩)).hBarReduceWidth = 200
    ∧ (70 : ℚ) ≠ 30 ∧ (40 : ℚ) ≠ 200 := by
  refine ⟨?_, ?_, ?_, ?_, ?_, ?_⟩ <;> decide

/-- The state the pass-through child operations touch: the inner content
container's children (abstractly, a list of component ids, mutated per the
`IChildren` collaborator contract) and a counter of `syncScrollBars`
calls. -/
structure ContentState where
  children : List ℕ
  syncCount : ℕ
deriving DecidableEq, Repr

/-- `append(...components)`: forward to `contentContainer.append`, then
sync. -/
def append (components : List ℕ) (s : ContentState) : ContentState :=
  { children := s.children ++ components, syncCount := s.syncCount + 1 }

/-- `appendFragment(fragment)`: forward to
`contentContainer.appendFragment`, then sync. -/
def appendFragment (fragment : List ℕ) (s : ContentState) : ContentState :=
  { children := s.children ++ fragment, syncCount := s.syncCount + 1 }

/-- `insert(at, ...components)`: forward to `contentContainer.insert`, then
sync. -/
def insert (i : ℕ) (components : List ℕ) (s : ContentState) : ContentState :=
  { children := s.children.take i ++ components ++ s.children.drop i
    syncCount := s.syncCount + 1 }

/-- `remove(...components)`: forward to `contentContainer.remove`, then
sync. -/
def remove (components : List ℕ) (s : ContentState) : ContentState :=
  { children := s.children.filter (fun c => !components.contains c)
    syncCount := s.syncCount + 1 }

/-- `extract(to, ...components)`: forward to `contentContainer.extract`
(which moves the components out), then sync. -/
def extract (components : List ℕ) (s : ContentState) : ContentState :=
  { children := s.children.filter (fun c => !components.contains c)
    syncCount := s.syncCount + 1 }

/-- `moveTo(target, ...components)`: forward to `contentContainer.moveTo`
(which moves the components to another container), then sync. -/
def moveTo (components : List ℕ) (s : ContentState) : ContentState :=
  { children := s.children.filter (fun c => !components.contains c)
    syncCount := s.syncCount + 1 }

/-- `moveToAt(target, at, ...components)`: forward to
`contentContainer.moveToAt`, then sync. -/
def moveToAt (components : List ℕ) (s : ContentState) : ContentState :=
  { children := s.children.filter (fun c => !components.contains c)
    syncCount := s.syncCount + 1 }

/-- Embedding of `insertFragment(at, fragment)` as written in the source —
its body calls `this.insertFragment(at, fragment)` (itself!) instead of
`this.contentContainer.insertFragment(at, fragment)`, then would sync:

    public insertFragment(at ..., fragment ...): this \x7b
        this.insertFragment(at, fragment);
        this.syncScrollBars();
        return this;
    \x7d

General recursion is embedded with an explicit fuel parameter; `none`
means the call has not returned within the given budget. -/
def insertFragmentFuel : ℕ → ℕ → List ℕ → ContentState →
    Option ContentState
  | 0, _, _, _ => none
  | fuel + 1, i, fragment, s =>
    match insertFragmentFuel fuel i fragment s with
    | none => none
    | some s2 => some { s2 with syncCount := s2.syncCount + 1 }

/-- C9 (code bug): `insertFragment` recurses into itself instead of
forwarding to the content container, so it returns under no finite budget
(a stack overflow in practice) and neither mutates the children nor
triggers a resync — while every other pass-through child operation
terminates, forwards the mutation and triggers exactly one resync. -/
theorem c9_insert_fragment_diverges :
    (∀ (fuel i : ℕ) (fragment : List ℕ) (s : ContentState),
      insertFragmentFuel fuel i fragment s = none)
    ∧ (∀ (cs : List ℕ) (s : ContentState),
        (append cs s).children = s.children ++ cs
        ∧ (append cs s).syncCount = s.syncCount + 1)
    ∧ (∀ (frag : List ℕ) (s : ContentState),
        (appendFragment frag s).children = s.children ++ frag
        ∧ (appendFragment frag s).syncCount = s.syncCount + 1)
    ∧ (∀ (i : ℕ) (cs : List ℕ) (s : ContentState),
        (insert i cs s).syncCount = s.syncCount + 1)
    ∧ (∀ (cs : List ℕ) (s : ContentState),
        (remove cs s).syncCount = s.syncCount + 1)
    ∧ (∀ (cs : List ℕ) (s : ContentState),
        (extract cs s).syncCount = s.syncCount + 1)
    ∧ (∀ (cs : List ℕ) (s : ContentState),
        (moveTo cs s).syncCount = s.syncCount + 1)
    ∧ (∀ (cs : List ℕ) (s : ContentState),
        (moveToAt cs s).syncCount = s.syncCount + 1) := by
  refine ⟨?_, ?_, ?_, ?_, ?_, ?_, ?_, ?_⟩
  · intro fuel
    induction fuel with
    | zero => intro i fragment s; rfl
    | succ n ih =>
      intro i fragment s
      simp [insertFragmentFuel, ih i fragment s]
  · intro cs s; exact ⟨rfl, rfl⟩
  · intro frag s; exact ⟨rfl, rfl⟩
  · intro i cs s; rfl
  · intro cs s; rfl
  · intro cs s; rfl
  · intro cs s; rfl
  · intro cs s; rfl

end ScrollContainer
